import Mathlib

/-!
Verification of the IaC-troubleshooting two-stage workflow: a shallow
embedding of `fetch-error-code-details.py` (stage one) and
`terraform-troubleshooting.py` (stage two).

Python strings are modelled as Lean `String`s; the handful of Python
string primitives the code uses (`lower`, `in`, `split`, `splitlines`,
`join`) are defined structurally over the underlying character lists so
that they evaluate inside the kernel.  Remote HTTP calls are modelled as
fields of an environment record returning `Except` values (`.error`
models a raised exception, e.g. from `raise_for_status`), and the set of
calls a function performs is tracked as an explicit trace of fetch
events.
-/

/-- Lower-case a character (ASCII, as Python's `str.lower` acts on the
ASCII letters appearing in the keywords of interest). -/
def charLower (c : Char) : Char := c.toLower

/-- Lower-case a string, character by character (models Python `str.lower`
for ASCII text). -/
def strLower (s : String) : String := String.mk (s.data.map charLower)

/-- Does `pat` occur as a contiguous substring of `s`? (character-list
form). -/
def containsSubChars (s pat : List Char) : Bool :=
  match s with
  | [] => pat.isEmpty
  | _ :: rest => pat.isPrefixOf s || containsSubChars rest pat

/-- Does `pat` occur as a contiguous substring of `s`? (models Python's
`pat in s`). -/
def containsSubstr (s pat : String) : Bool :=
  containsSubChars s.data pat.data

/-- Split a character list on a separator character; like Python's
`str.split(sep)`, `n` separators yield `n + 1` (possibly empty) pieces. -/
def splitOnChar (sep : Char) : List Char → List (List Char)
  | [] => [[]]
  | c :: rest =>
    if c = sep then [] :: splitOnChar sep rest
    else
      match splitOnChar sep rest with
      | [] => [[c]]
      | l :: ls => (c :: l) :: ls

/-- Python `s.split(sep)` for a one-character separator. -/
def pySplitChar (sep : Char) (s : String) : List String :=
  (splitOnChar sep s.data).map String.mk

/-- Python `str.splitlines` restricted to newline-separated text: split on
the newline character; a trailing newline does not produce a final empty
piece, and the empty string yields no lines. -/
def pySplitlines (s : String) : List String :=
  if s.data = [] then []
  else
    let parts := (splitOnChar '\n' s.data).map String.mk
    if s.data.getLast? = some '\n' then parts.dropLast else parts

/-! ## `fetch-error-code-details.py`: Log Error Extractor -/

/-- The two keywords of `extract_error_with_context`: a line is
error-marking when its lower-cased form contains the structured marker
`"@level":"error"` or the substring `error:`. -/
def errorKeywords : List String := ["\"@level\":\"error\"", "error:"]

/-- `any(keyword in line.lower() for keyword in [...])` from
`extract_error_with_context`. -/
def isErrorMarking (line : String) : Bool :=
  errorKeywords.any (fun keyword => containsSubstr (strLower line) keyword)

/-- The accumulator loop of `extract_error_with_context`: for each
enumerated line that is error-marking at index `i`, extend the
accumulator with the slice `log_lines[i : min(i + context_lines + 1,
len(log_lines))]` (written `drop i |>.take (context_lines + 1)`, since
`take` clamps at the end of the list) followed by one empty separator
line. -/
def error_lines_with_context (log_lines : List String) (context_lines : Nat) :
    List String :=
  (log_lines.enum).foldl
    (fun acc p =>
      if isErrorMarking p.2 then
        acc ++ ((log_lines.drop p.1).take (context_lines + 1) ++ [""])
      else acc)
    []

/-- `extract_error_with_context`: split the log into lines, collect each
error-marking line with its trailing context window and a blank
separator, and re-join with newlines. -/
def extract_error_with_context (log_content : String) (context_lines : Nat := 5) :
    String :=
  String.intercalate "\n" (error_lines_with_context (pySplitlines log_content) context_lines)

/-- The spec's description of the extractor output, written directly as a
concatenation (`flatMap`) over the enumerated lines: one block per
error-marking line, the block being lines `[i, min(i + window + 1, end))`
followed by one blank separator line, blocks in original order,
overlaps not deduplicated. -/
def errorBlocksSpec (log_lines : List String) (context_lines : Nat) :
    List String :=
  (log_lines.enum).flatMap
    (fun p =>
      if isErrorMarking p.2 then
        (log_lines.drop p.1).take (context_lines + 1) ++ [""]
      else [])

/-! ## `fetch-error-code-details.py`: Identifier Resolver -/

/-- Python negative indexing `xs[-k]` (for `k ≥ 1`): `some (xs[len - k])`
when `k ≤ len`, and `none` modelling the `IndexError` raised when the
list is too short. -/
def pyNegGet (xs : List String) (k : Nat) : Option String :=
  if 1 ≤ k ∧ k ≤ xs.length then xs.get? (xs.length - k) else none

/-- `get_workspace_id_from_url`: split the URL on `/`; if the literal
segment `runs` is present, return (3rd-from-last, 5th-from-last, last) as
(workspace, organization, run id); otherwise (last, 3rd-from-last, no run
id).  `none` models the `IndexError` a too-short URL raises. -/
def get_workspace_id_from_url (workspace_url : String) :
    Option (String × String × Option String) :=
  let parts := pySplitChar '/' workspace_url
  if "runs" ∈ parts then
    match pyNegGet parts 3, pyNegGet parts 5, pyNegGet parts 1 with
    | some workspace_name, some org_name, some run_id =>
      some (workspace_name, org_name, some run_id)
    | _, _, _ => none
  else
    match pyNegGet parts 1, pyNegGet parts 3 with
    | some workspace_name, some org_name =>
      some (workspace_name, org_name, none)
    | _, _ => none

/-! ## `fetch-error-code-details.py`: Run Locator and Run Diagnoser

`get_latest_run_error` walks remote resources over HTTP.  The remote
world is a record of functions returning `Except String α` (`.error msg`
models a raised exception, e.g. `raise_for_status` on a non-2xx
response), and every function of the embedding additionally returns the
trace of fetch events it performed, in order. -/

/-- One remote fetch performed by `get_latest_run_error`: the run-by-id,
workspace-by-name, runs-list, plan-details, apply-details and
log-read-url GET requests of the source. -/
inductive FetchEvent where
  | runById (run_id : String)
  | workspaceByName (org_name workspace_name : String)
  | runsList (workspace_id : String)
  | planDetails (plan_id : String)
  | applyDetails (apply_id : String)
  | logGet (url : String)
deriving DecidableEq

/-- The slice of a run document `get_latest_run_error` reads:
`data.id`, `data.attributes.status`, and the optional
`data.relationships.plan.data.id` / `data.relationships.apply.data.id`. -/
structure RunData where
  id : String
  status : String
  plan : Option String
  apply : Option String
deriving DecidableEq

/-- The remote automation-platform API as seen by
`get_latest_run_error`.  The plan/apply detail endpoints are collapsed to
the optional `data.attributes.log-read-url` the code extracts from them
(the `.get(..., \x7b\x7d).get(..., \x7b\x7d).get(\x27log-read-url\x27)`
chain, which never raises and yields `none` when the key is absent). -/
structure TfcApi where
  fetchRunById : String → Except String RunData
  fetchWorkspaceId : String → String → Except String String
  fetchRuns : String → Except String (List RunData)
  fetchPlanLogUrl : String → Except String (Option String)
  fetchApplyLogUrl : String → Except String (Option String)
  fetchLog : String → Except String String

/-- The "check for plan errors first" block of `get_latest_run_error`:
if the run has a plan relationship, fetch the plan details; if they carry
a `log-read-url`, fetch that log and extract error context; a non-empty
extraction yields `some ("Plan Error:\n" ++ lines)`.  `.error` is an
exception escaping the block (to be caught by the surrounding
try/except). -/
def checkPlanStep (api : TfcApi) (latest_run : RunData) :
    Except String (Option String) × List FetchEvent :=
  match latest_run.plan with
  | none => (.ok none, [])
  | some plan_id =>
    match api.fetchPlanLogUrl plan_id with
    | .error e => (.error e, [.planDetails plan_id])
    | .ok none => (.ok none, [.planDetails plan_id])
    | .ok (some log_read_url) =>
      match api.fetchLog log_read_url with
      | .error e => (.error e, [.planDetails plan_id, .logGet log_read_url])
      | .ok log_content =>
        let error_lines := extract_error_with_context log_content
        (if error_lines = "" then .ok none
         else .ok (some ("Plan Error:\n" ++ error_lines)),
         [.planDetails plan_id, .logGet log_read_url])

/-- The "if no plan errors, check for apply errors" block of
`get_latest_run_error`, mirroring `checkPlanStep` on the apply
sub-resource. -/
def checkApplyStep (api : TfcApi) (latest_run : RunData) :
    Except String (Option String) × List FetchEvent :=
  match latest_run.apply with
  | none => (.ok none, [])
  | some apply_id =>
    match api.fetchApplyLogUrl apply_id with
    | .error e => (.error e, [.applyDetails apply_id])
    | .ok none => (.ok none, [.applyDetails apply_id])
    | .ok (some log_read_url) =>
      match api.fetchLog log_read_url with
      | .error e => (.error e, [.applyDetails apply_id, .logGet log_read_url])
      | .ok log_content =>
        let error_lines := extract_error_with_context log_content
        (if error_lines = "" then .ok none
         else .ok (some ("Apply Error:\n" ++ error_lines)),
         [.applyDetails apply_id, .logGet log_read_url])

/-- The sentinel `get_latest_run_error` returns when the run is not
errored or no error lines were found. -/
def noErrorsSentinel : String :=
  "No errors found in the latest run\x27s plan or apply output."

/-- The sentinel `get_latest_run_error` returns when the workspace's runs
list is empty. -/
def noRunsSentinel : String := "No runs found for the workspace."

/-- The `run_status == \x27errored\x27` branch of `get_latest_run_error`:
one try/except wraps BOTH the plan block and the apply block; an
exception raised in either block is caught (logged in the source) and
control falls through to the final sentinel return.  In particular an
exception in the plan block skips the apply block. -/
def diagnoseErroredRun (api : TfcApi) (latest_run : RunData) :
    String × List FetchEvent :=
  match checkPlanStep api latest_run with
  | (.error _, tr) => (noErrorsSentinel, tr)
  | (.ok (some msg), tr) => (msg, tr)
  | (.ok none, tr) =>
    match checkApplyStep api latest_run with
    | (.error _, tr2) => (noErrorsSentinel, tr ++ tr2)
    | (.ok (some msg), tr2) => (msg, tr ++ tr2)
    | (.ok none, tr2) => (noErrorsSentinel, tr ++ tr2)

/-- The run-locating prefix of `get_latest_run_error`: with a `run_id`,
fetch that run directly (a failure propagates — no try/except); without
one, fetch the workspace id then the runs list (failures propagate), and
take the first run of the list, `none` when the list is empty. -/
def locateRun (api : TfcApi) (workspace_name org_name : String)
    (run_id : Option String) :
    Except String (Option RunData) × List FetchEvent :=
  match run_id with
  | some rid =>
    match api.fetchRunById rid with
    | .error e => (.error e, [.runById rid])
    | .ok latest_run => (.ok (some latest_run), [.runById rid])
  | none =>
    match api.fetchWorkspaceId org_name workspace_name with
    | .error e => (.error e, [.workspaceByName org_name workspace_name])
    | .ok workspace_id =>
      match api.fetchRuns workspace_id with
      | .error e =>
        (.error e,
         [.workspaceByName org_name workspace_name, .runsList workspace_id])
      | .ok runs_data =>
        (.ok runs_data.head?,
         [.workspaceByName org_name workspace_name, .runsList workspace_id])

/-- `get_latest_run_error`: locate the run; an empty runs list returns the
"no runs" sentinel; an errored run is diagnosed via the plan-then-apply
blocks; any other status returns the "no errors found" sentinel with no
further fetches. -/
def get_latest_run_error (api : TfcApi) (workspace_name org_name : String)
    (run_id : Option String := none) :
    Except String String × List FetchEvent :=
  match locateRun api workspace_name org_name run_id with
  | (.error e, tr) => (.error e, tr)
  | (.ok none, tr) => (.ok noRunsSentinel, tr)
  | (.ok (some latest_run), tr) =>
    if latest_run.status = "errored" then
      match diagnoseErroredRun api latest_run with
      | (msg, tr2) => (.ok msg, tr ++ tr2)
    else (.ok noErrorsSentinel, tr)

/-! ## `fetch-error-code-details.py`: stage-one `lambda_handler` -/

/-- An observable effect of the stage-one handler: the two secret
retrievals, the repository fetch, and the automation-platform fetches of
`get_latest_run_error`. -/
inductive Eff1 where
  | vcsSecretFetch
  | gitlabFetch (repo_url branch_name : String)
  | tfeSecretFetch
  | tfc (e : FetchEvent)
deriving DecidableEq

/-- The stage-one invocation event: `workspace_url` is read with
`event[...]` (a missing key raises), `repo_url` and `branch_name` with
`event.get`. -/
structure StageOneEvent where
  workspace_url : Option String
  repo_url : Option String
  branch_name : Option String

/-- The external world of the stage-one handler: the two secret lookups
(already projected to the token the code extracts) and the GitLab
repository fetch `fetch_files_from_gitlab repo_url branch_name token`,
abstracted to the files-content string it returns. -/
structure StageOneWorld where
  vcsToken : Except String String
  tfeToken : Except String String
  gitlabFiles : String → String → String → Except String String
  api : TfcApi

/-- The stage-one handler's response: `success` is the statusCode-200
body `\x7bfiles_content, error_message\x7d`, `failure` the
statusCode-500 body `\x7berror\x7d`. -/
inductive StageOneResult where
  | success (files_content : String) (error_message : String)
  | failure (error : String)
deriving DecidableEq

/-- Python truthiness of an optional string: `None` and the empty string
are falsy (`if repo_url:`). -/
def pyTruthy (s : Option String) : Bool :=
  match s with
  | none => false
  | some v => v ≠ ""

/-- Stage-one `lambda_handler` of `fetch-error-code-details.py`: read the
event fields (a missing `workspace_url` raises a `KeyError`, caught by
the handler's own try/except into a 500 response); when `repo_url` is
truthy, fetch the VCS secret and the repository files; then fetch the
TFE secret, resolve the workspace URL (`none` from the resolver models
the `IndexError` of a too-short URL, likewise caught into a 500), run
`get_latest_run_error`, and return the 200 body.  Any exception in the
chain yields the 500 body with the exception's message. -/
def lambda_handler_stage1 (w : StageOneWorld) (event : StageOneEvent) :
    StageOneResult × List Eff1 :=
  match event.workspace_url with
  | none => (.failure "\x27workspace_url\x27", [])
  | some workspace_url =>
    let repo_url := event.repo_url
    let branch_name := event.branch_name.getD "main"
    let repoStep : Except String String × List Eff1 :=
      if pyTruthy repo_url then
        match w.vcsToken with
        | .error e => (.error e, [.vcsSecretFetch])
        | .ok gitlab_token =>
          match w.gitlabFiles (repo_url.getD "") branch_name gitlab_token with
          | .error e =>
            (.error e,
             [.vcsSecretFetch, .gitlabFetch (repo_url.getD "") branch_name])
          | .ok files =>
            (.ok files,
             [.vcsSecretFetch, .gitlabFetch (repo_url.getD "") branch_name])
      else (.ok "", [])
    match repoStep with
    | (.error e, tr) => (.failure e, tr)
    | (.ok files_content, tr) =>
      match w.tfeToken with
      | .error e => (.failure e, tr ++ [.tfeSecretFetch])
      | .ok _tfe_api_token =>
        match get_workspace_id_from_url workspace_url with
        | none => (.failure "list index out of range", tr ++ [.tfeSecretFetch])
        | some (workspace_name, org_name, run_id) =>
          match get_latest_run_error w.api workspace_name org_name run_id with
          | (.error e, tr2) =>
            (.failure e, tr ++ [.tfeSecretFetch] ++ tr2.map .tfc)
          | (.ok error_message, tr2) =>
            (.success files_content error_message,
             tr ++ [.tfeSecretFetch] ++ tr2.map .tfc)

/-! ## `terraform-troubleshooting.py`: stage-two `lambda_handler` -/

/-- A Python exception as the stage-two handler distinguishes them: a
`KeyError` (carrying `str(ke)`, i.e. the `repr` of its argument) or any
other exception (carrying `str(e)`). -/
inductive PyErr where
  | keyError (s : String)
  | other (s : String)
deriving DecidableEq

/-- The agent-framework invocation event.  `agent`, `actionGroup`,
`function` and `messageVersion` are read with `event[...]` (a missing
key raises `KeyError`); `parameters` is read with `event.get`. -/
structure AgentEvent where
  agent : Option String
  actionGroup : Option String
  function : Option String
  parameters : Option (List (String × String))
  messageVersion : Option String

/-- The slice of the stage-one response body the stage-two handler reads:
`files_content` via `.get(\x27files_content\x27, \x27\x27)` and
`error_message` via `.get(\x27error_message\x27)`. -/
structure RemoteBody where
  files_content : Option String
  error_message : Option String

/-- The external world of the stage-two handler: the synchronous
invocation of stage one (as a function of the payload fields
`workspace_url`, `repo_url`, `branch_name`; `.error` models any exception
while invoking or decoding it) and the Bedrock model invocation as a
function of the prompt. -/
structure StageTwoWorld where
  invokeRemote : Option String → Option String → String → Except PyErr RemoteBody
  invokeBedrock : String → Except PyErr String

/-- The agent response envelope
`\x7bresponse: \x7bactionGroup, function, functionResponse:
\x7bresponseBody: \x7bTEXT: \x7bbody\x7d\x7d\x7d\x7d,
messageVersion\x7d` flattened to its four variable fields. -/
structure FinalResponse where
  actionGroup : String
  function : String
  body : String
  messageVersion : String
deriving DecidableEq

/-- The dict comprehension
`\x7bparam["name"]: param["value"] for param in parameters\x7d`:
a later entry overrides an earlier one with the same name. -/
def lookupLast (ps : List (String × String)) (k : String) : Option String :=
  ((ps.filter (fun p => p.1 == k)).getLast?).map (fun p => p.2)

/-- Python `str` of the interpolated value: `None` prints as `"None"`. -/
def pyStr (s : Option String) : String :=
  match s with
  | none => "None"
  | some v => v

/-- The `specific_use_case` template fragment of the stage-two handler. -/
def specific_use_case : String :=
  "\n        - If the error is with respect to service control policies or resource based policies then inform the user to contact Security team (abc-security@abc.com) as it is a limitation. DO NOT include any other information.\n        - If the error is with respect to S3 bucket creation or VPC resource creation, inform the user to contact Platform team (abc-platform@abc.com) as it is a limitation. DO NOT include any other information.\n        "

/-- The f-string prompt the stage-two handler builds for the model,
with `error_message` (possibly `None`), `repo_files_content` and
`specific_use_case` interpolated. -/
def buildPrompt (error_message : Option String) (repo_files_content : String) :
    String :=
  "\n        <task>\n        You are an expert in troubleshooting Terraform code issues. Below is an error message and the contents of a Git repository.\n        Please provide detailed troubleshooting steps to resolve the issue.\n\n        <error_message>\n        "
  ++ pyStr error_message
  ++ "\n        </error_message>\n\n        <repo_files_content>\n        "
  ++ repo_files_content
  ++ "\n        </repo_files_content>\n        \n        <instructions>\n        Provide step-by-step instructions on how to resolve the error in terraform enterprise environment, taking into account the specific context provided by the repository files. Ensure that the troubleshooting steps are provided aligning to "
  ++ specific_use_case
  ++ ".\n        </instructions>\n        </task>\n        "

/-- `str` of the `KeyError` raised when neither field is present: Python
renders `str(KeyError(m))` as `repr(m)`, which is double-quoted here
because the message contains single quotes. -/
def missingDataKeyErrorStr : String :=
  "\"Neither \x27files_content\x27 nor \x27error_message\x27 were found in the response from Lambda 2\""

/-- The body of the stage-two handler's try block: build the properties
dict from the parameters, invoke stage one, check the
missing-data condition (`error_message is None and repo_files_content ==
\x27\x27` raises the `KeyError`), invoke the model, and build the
success envelope (reading `event[\x27messageVersion\x27]`, whose absence
raises a `KeyError` inside the try block). -/
def stageTwoTry (w : StageTwoWorld) (event : AgentEvent)
    (actionGroup function : String) : Except PyErr FinalResponse :=
  match w.invokeRemote (lookupLast (event.parameters.getD []) "workspace_url")
      (lookupLast (event.parameters.getD []) "repo_url")
      ((lookupLast (event.parameters.getD []) "branch_name").getD "main") with
  | .error e => .error e
  | .ok response_body =>
    if response_body.error_message = none
        ∧ response_body.files_content.getD "" = "" then
      .error (.keyError missingDataKeyErrorStr)
    else
      match w.invokeBedrock (buildPrompt response_body.error_message
          (response_body.files_content.getD "")) with
      | .error e => .error e
      | .ok troubleshooting_steps =>
        match event.messageVersion with
        | none => .error (.keyError "\x27messageVersion\x27")
        | some mv => .ok ⟨actionGroup, function, troubleshooting_steps, mv⟩

/-- Stage-two `lambda_handler` of `terraform-troubleshooting.py`.  The
reads of `event[\x27agent\x27]`, `event[\x27actionGroup\x27]` and
`event[\x27function\x27]` happen BEFORE the try block, so a missing key
there propagates a `KeyError` to the caller (modelled as `.error`).  A
`KeyError` from the try block lands in the `except KeyError` arm
("Missing required information: " ++ str(ke)); any other exception lands
in the generic arm ("Error: " ++ str(e)); both arms read
`event[\x27messageVersion\x27]`, whose absence raises an uncaught
`KeyError` out of the handler. -/
def lambda_handler_stage2 (w : StageTwoWorld) (event : AgentEvent) :
    Except PyErr FinalResponse :=
  match event.agent with
  | none => .error (.keyError "\x27agent\x27")
  | some _agent =>
    match event.actionGroup with
    | none => .error (.keyError "\x27actionGroup\x27")
    | some actionGroup =>
      match event.function with
      | none => .error (.keyError "\x27function\x27")
      | some function =>
        match stageTwoTry w event actionGroup function with
        | .ok final_response => .ok final_response
        | .error (.keyError s) =>
          match event.messageVersion with
          | none => .error (.keyError "\x27messageVersion\x27")
          | some mv =>
            .ok ⟨actionGroup, function, "Missing required information: " ++ s, mv⟩
        | .error (.other s) =>
          match event.messageVersion with
          | none => .error (.keyError "\x27messageVersion\x27")
          | some mv => .ok ⟨actionGroup, function, "Error: " ++ s, mv⟩

/-! ## Spec-side formulations and concrete fixtures -/

/-- The spec's description of the extractor output indexed over line
positions: for each index `i` whose line is error-marking, the block of
lines `[i, min(i + window + 1, end))` followed by one blank separator
line; blocks concatenated in original order, overlaps not
deduplicated. -/
def errorBlocksSpecIdx (log_lines : List String) (context_lines : Nat) :
    List String :=
  (List.range log_lines.length).flatMap
    (fun i =>
      if isErrorMarking (log_lines.getD i "") then
        (log_lines.drop i).take (context_lines + 1) ++ [""]
      else [])

/-- Python `s.startswith(pre)`, as a prefix test on the character list. -/
def strStartsWith (s pre : String) : Bool := pre.data.isPrefixOf s.data

/-- A plan log whose error extraction is non-empty. -/
def planErrorLog : String := "error: plan step failed\ncontext line"

/-- An apply log whose error extraction is non-empty. -/
def applyErrorLog : String := "error: apply step failed\ncontext line"

/-- An errored run with both plan and apply sub-resources. -/
def erroredRun : RunData := ⟨"run-1", "errored", some "plan-1", some "apply-1"⟩

/-- The same run while still planning. -/
def planningRun : RunData := ⟨"run-1", "planning", some "plan-1", some "apply-1"⟩

/-- An API world where the errored run's plan log and apply log both
extract non-empty error context. -/
def apiPlanError : TfcApi :=
  ⟨fun rid => .ok ⟨rid, "errored", some "plan-1", some "apply-1"⟩,
   fun _ _ => .error "unused",
   fun _ => .error "unused",
   fun _ => .ok (some "https://archivist/plan-log"),
   fun _ => .ok (some "https://archivist/apply-log"),
   fun url => if url = "https://archivist/plan-log" then .ok planErrorLog
              else .ok applyErrorLog⟩

/-- An API world where fetching the errored run's plan details fails with
an HTTP error while the apply side would extract non-empty error
context. -/
def apiPlanHttpFail : TfcApi :=
  ⟨fun rid => .ok ⟨rid, "errored", some "plan-1", some "apply-1"⟩,
   fun _ _ => .error "unused",
   fun _ => .error "unused",
   fun _ => .error "500 Server Error",
   fun _ => .ok (some "https://archivist/apply-log"),
   fun _ => .ok applyErrorLog⟩

/-- An API world whose workspace lookup succeeds but whose runs list is
empty. -/
def apiNoRuns : TfcApi :=
  ⟨fun _ => .error "unused",
   fun _ _ => .ok "ws-id-1",
   fun _ => .ok [],
   fun _ => .error "unused",
   fun _ => .error "unused",
   fun _ => .error "unused"⟩

/-- An API world where the located run is still planning. -/
def apiPlanningRun : TfcApi :=
  ⟨fun rid => .ok ⟨rid, "planning", some "plan-1", some "apply-1"⟩,
   fun _ _ => .error "unused",
   fun _ => .error "unused",
   fun _ => .error "unused",
   fun _ => .error "unused",
   fun _ => .error "unused"⟩

/-- An API world where the workspace's most recent run is still
planning. -/
def apiWorkspacePlanning : TfcApi :=
  ⟨fun _ => .error "unused",
   fun _ _ => .ok "ws-id-1",
   fun _ => .ok [planningRun],
   fun _ => .error "unused",
   fun _ => .error "unused",
   fun _ => .error "unused"⟩

/-- A stage-one world with a valid TFE token over
`apiWorkspacePlanning`; the VCS side is never consulted. -/
def stageOneWorldNoRepo : StageOneWorld :=
  ⟨.error "unused-vcs", .ok "tfe-token", fun _ _ _ => .error "unused",
   apiWorkspacePlanning⟩

/-- A stage-one event carrying only a workspace URL. -/
def stageOneEventNoRepo : StageOneEvent :=
  ⟨some "https://tfe.example.com/app/ORG/workspaces/WS", none, none⟩

/-- An agent event with every expected key present. -/
def eventFull : AgentEvent :=
  ⟨some "agent-1", some "ag-1", some "fn-1",
   some [("workspace_url", "https://tfe.example.com/app/ORG/workspaces/WS")],
   some "1.0"⟩

/-- An agent event missing the `agent` key. -/
def eventMissingAgent : AgentEvent :=
  ⟨none, some "ag-1", some "fn-1", some [], some "1.0"⟩

/-- A stage-two world whose remote call and model call both succeed. -/
def worldBenign : StageTwoWorld :=
  ⟨fun _ _ _ => .ok ⟨some "files", some "an error"⟩, fun _ => .ok "steps"⟩

/-- A stage-two world whose remote call returns an empty `files_content`
and an absent `error_message`. -/
def worldMissingData : StageTwoWorld :=
  ⟨fun _ _ _ => .ok ⟨some "", none⟩, fun _ => .ok "steps"⟩

/-! ## Helper lemmas -/

lemma enumFrom_eq_map_range : ∀ (l : List String) (n : Nat),
    List.enumFrom n l = (List.range l.length).map (fun i => (n + i, l.getD i "")) := by
  intro l
  induction l with
  | nil => intro n; simp
  | cons x xs ih =>
    intro n
    simp only [List.enumFrom, List.length_cons, List.range_succ_eq_map, List.map_cons,
      List.map_map, ih]
    congr 1
    apply List.map_congr_left
    intro a _
    simp only [Function.comp_apply, Nat.succ_eq_add_one, List.getD_cons_succ]
    congr 1
    omega

lemma enum_eq_map_range (l : List String) :
    l.enum = (List.range l.length).map (fun i => (i, l.getD i "")) := by
  have := enumFrom_eq_map_range l 0
  simpa [List.enum] using this

lemma foldl_guarded_extend {α β : Type} (g : α → Bool) (f : α → List β) :
    ∀ (l : List α) (acc : List β),
      l.foldl (fun acc x => if g x then acc ++ f x else acc) acc
        = acc ++ l.flatMap (fun x => if g x then f x else []) := by
  intro l
  induction l with
  | nil => intro acc; simp
  | cons x xs ih =>
    intro acc
    by_cases h : g x <;> simp [h, ih, List.append_assoc]

lemma error_lines_with_context_eq_spec (log_lines : List String) (w : Nat) :
    error_lines_with_context log_lines w = errorBlocksSpec log_lines w := by
  unfold error_lines_with_context errorBlocksSpec
  simpa using foldl_guarded_extend (fun p => isErrorMarking p.2)
    (fun p => (log_lines.drop p.1).take (w + 1) ++ [""]) log_lines.enum []

lemma errorBlocksSpec_eq_idx (log_lines : List String) (w : Nat) :
    errorBlocksSpec log_lines w = errorBlocksSpecIdx log_lines w := by
  unfold errorBlocksSpec errorBlocksSpecIdx
  rw [enum_eq_map_range, List.flatMap_map]

lemma extract_empty_of_no_marking (log_content : String) (w : Nat)
    (h : ∀ line ∈ pySplitlines log_content, isErrorMarking line = false) :
    extract_error_with_context log_content w = "" := by
  unfold extract_error_with_context
  rw [error_lines_with_context_eq_spec]
  have hnil : errorBlocksSpec (pySplitlines log_content) w = [] := by
    unfold errorBlocksSpec
    rw [List.flatMap_eq_nil_iff]
    intro p hp
    have hline : p.2 ∈ pySplitlines log_content := by
      have := List.mk_mem_enum_iff_getElem?.mp hp
      exact List.getElem?_mem this
    simp [h p.2 hline]
  rw [hnil]
  rfl

lemma infix_flatMap_of_mem {α β : Type} (l : List α) (f : α → List β) (x : α)
    (hx : x ∈ l) : f x <:+: l.flatMap f := by
  obtain ⟨s, t, rfl⟩ := List.append_of_mem hx
  exact ⟨s.flatMap f, t.flatMap f, by simp⟩

/-! ## Claim theorems -/

/-- C3: `extract_error_with_context` outputs, for each error-marking line
at index `i`, the lines `[i, min(i + window + 1, n))` followed by one
blank separator line, concatenating all blocks in original order without
deduplicating overlaps (the source's accumulator loop equals the
per-index block concatenation `errorBlocksSpecIdx`); on the concrete
seven-line input with window 5 the joined output is exactly lines 1-6
followed by the blank separator, line 7 excluded; and any input with no
marking line yields the empty string. -/
theorem extractor_blocks_correct :
    (∀ (log_lines : List String) (w : Nat),
        error_lines_with_context log_lines w = errorBlocksSpecIdx log_lines w)
    ∧ extract_error_with_context
        "\x7b\"@level\":\"error\",\"msg\":\"x\"\x7d\nline2\nline3\nline4\nline5\nline6\nline7" 5
        = "\x7b\"@level\":\"error\",\"msg\":\"x\"\x7d\nline2\nline3\nline4\nline5\nline6\n"
    ∧ (∀ (log_content : String) (w : Nat),
        (∀ line ∈ pySplitlines log_content, isErrorMarking line = false) →
        extract_error_with_context log_content w = "") :=
  ⟨fun lines w =>
    (error_lines_with_context_eq_spec lines w).trans (errorBlocksSpec_eq_idx lines w),
   by decide,
   extract_empty_of_no_marking⟩

/-- C3 witness: the theorem applied at a concrete marker-free log. -/
theorem extractor_blocks_correct_witness :
    extract_error_with_context "calm\nsea" 5 = "" :=
  extractor_blocks_correct.2.2 "calm\nsea" 5 (by decide)

/-- C4 counterexample: the line `{"level":"error","msg":"x"}` contains
the substring `"level":"error"` (case-insensitively, no `@`), yet the
extractor does not treat it as error-marking — the code's keyword is
`"@level":"error"` with the `@` — and its extraction is empty. -/
theorem level_marker_counterexample :
    containsSubstr (strLower "\x7b\"level\":\"error\",\"msg\":\"x\"\x7d")
        "\"level\":\"error\"" = true
    ∧ isErrorMarking "\x7b\"level\":\"error\",\"msg\":\"x\"\x7d" = false
    ∧ extract_error_with_context "\x7b\"level\":\"error\",\"msg\":\"x\"\x7d" 5 = "" :=
  ⟨by decide, by decide, by decide⟩

/-- C4 (amended): every log line that, case-insensitively, contains the
structured marker `"@level":"error"` (with the `@`, as the code writes
it) or the substring `error:` is treated as error-marking, and its block
— the line with its trailing context window and the blank separator —
occurs contiguously in the extractor's output. -/
theorem marking_line_block_included (log_lines : List String) (w i : Nat)
    (line : String) (hline : log_lines[i]? = some line)
    (hmark : containsSubstr (strLower line) "\"@level\":\"error\"" = true
             ∨ containsSubstr (strLower line) "error:" = true) :
    ((log_lines.drop i).take (w + 1) ++ [""]) <:+:
      error_lines_with_context log_lines w := by
  have hm : isErrorMarking line = true := by
    unfold isErrorMarking errorKeywords
    rcases hmark with h | h <;> simp [h]
  rw [error_lines_with_context_eq_spec]
  unfold errorBlocksSpec
  have hmem : (i, line) ∈ log_lines.enum := by
    rw [List.mk_mem_enum_iff_getElem?]
    exact hline
  have hinf := infix_flatMap_of_mem log_lines.enum
    (fun p => if isErrorMarking p.2 then
        (log_lines.drop p.1).take (w + 1) ++ [""] else [])
    (i, line) hmem
  simpa [hm] using hinf

/-- C4 witness: the amended theorem at a concrete two-line log whose
first line contains `error:`. -/
theorem marking_line_block_included_witness :
    (((["error: boom", "after"] : List String).drop 0).take (5 + 1) ++ [""]) <:+:
      error_lines_with_context ["error: boom", "after"] 5 :=
  marking_line_block_included ["error: boom", "after"] 5 0 "error: boom"
    (by decide) (Or.inr (by decide))

/-- C1: for an errored run, `get_latest_run_error` checks the plan
sub-resource before the apply sub-resource.  A non-empty plan-log
extraction returns `"Plan Error:\n<lines>"` immediately, and the returned
trace extends the locating trace by exactly the plan-details fetch and
the plan's log fetch — no apply-details fetch and no apply-log fetch
occur.  If the plan yields nothing (no plan relationship, no
log-read-url, or an empty extraction) and the apply's log yields a
non-empty extraction, the result is `"Apply Error:\n<lines>"`. -/
theorem run_diagnoser_plan_priority :
    (∀ (api : TfcApi) (ws org : String) (rid? : Option String) (run : RunData)
        (tr0 : List FetchEvent) (plan_id url log : String),
        locateRun api ws org rid? = (.ok (some run), tr0) →
        run.status = "errored" →
        run.plan = some plan_id →
        api.fetchPlanLogUrl plan_id = .ok (some url) →
        api.fetchLog url = .ok log →
        extract_error_with_context log ≠ "" →
        get_latest_run_error api ws org rid?
          = (.ok ("Plan Error:\n" ++ extract_error_with_context log),
             tr0 ++ [.planDetails plan_id, .logGet url]))
    ∧ (∀ (api : TfcApi) (ws org : String) (rid? : Option String) (run : RunData)
        (tr0 : List FetchEvent) (apply_id url2 log2 : String),
        locateRun api ws org rid? = (.ok (some run), tr0) →
        run.status = "errored" →
        (run.plan = none
         ∨ (∃ plan_id, run.plan = some plan_id
              ∧ api.fetchPlanLogUrl plan_id = .ok none)
         ∨ (∃ plan_id purl plog, run.plan = some plan_id
              ∧ api.fetchPlanLogUrl plan_id = .ok (some purl)
              ∧ api.fetchLog purl = .ok plog
              ∧ extract_error_with_context plog = "")) →
        run.apply = some apply_id →
        api.fetchApplyLogUrl apply_id = .ok (some url2) →
        api.fetchLog url2 = .ok log2 →
        extract_error_with_context log2 ≠ "" →
        (get_latest_run_error api ws org rid?).1
          = .ok ("Apply Error:\n" ++ extract_error_with_context log2)) := by
  constructor
  · intro api ws org rid? run tr0 plan_id url log hloc hst hplan hpu hlog hne
    simp only [get_latest_run_error, hloc, hst, if_pos, diagnoseErroredRun,
      checkPlanStep, hplan, hpu, hlog, hne, if_neg, reduceIte]
  · intro api ws org rid? run tr0 apply_id url2 log2 hloc hst hnothing happ hau
      hlog2 hne2
    have hplanstep : ∃ trp, checkPlanStep api run = (.ok none, trp) := by
      rcases hnothing with h | ⟨plan_id, hp, hu⟩ | ⟨plan_id, purl, plog, hp, hu, hl, hempty⟩
      · exact ⟨[], by simp [checkPlanStep, h]⟩
      · exact ⟨[.planDetails plan_id], by simp [checkPlanStep, hp, hu]⟩
      · exact ⟨[.planDetails plan_id, .logGet purl],
          by simp [checkPlanStep, hp, hu, hl, hempty]⟩
    obtain ⟨trp, hps⟩ := hplanstep
    simp only [get_latest_run_error, hloc, hst, if_pos, diagnoseErroredRun, hps,
      checkApplyStep, happ, hau, hlog2, hne2, if_neg, reduceIte]

/-- C1 witness: the first conjunct applied at `apiPlanError` and the
run-by-id locating path. -/
theorem run_diagnoser_plan_priority_witness :
    get_latest_run_error apiPlanError "WS" "ORG" (some "run-1")
      = (.ok ("Plan Error:\n" ++ extract_error_with_context planErrorLog),
         [.runById "run-1", .planDetails "plan-1",
          .logGet "https://archivist/plan-log"]) :=
  run_diagnoser_plan_priority.1 apiPlanError "WS" "ORG" (some "run-1")
    ⟨"run-1", "errored", some "plan-1", some "apply-1"⟩ [.runById "run-1"]
    "plan-1" "https://archivist/plan-log" planErrorLog rfl rfl rfl rfl rfl
    (by decide)

/-- C2 counterexample: with `apiPlanHttpFail` the plan-details fetch
raises an HTTP error while the apply log would extract non-empty error
lines; the code returns the "no errors found" sentinel and the trace
shows the apply sub-resource was never fetched — not
`"Apply Error:\n<lines>"` as the claim states. -/
theorem plan_failure_skips_apply_counterexample :
    get_latest_run_error apiPlanHttpFail "WS" "ORG" (some "run-1")
      = (.ok noErrorsSentinel, [.runById "run-1", .planDetails "plan-1"])
    ∧ extract_error_with_context applyErrorLog ≠ ""
    ∧ noErrorsSentinel ≠ "Apply Error:\n" ++ extract_error_with_context applyErrorLog :=
  ⟨rfl, by decide, by decide⟩

/-- C2 (amended): an HTTP failure while fetching the errored run's plan
details or plan log is caught — the diagnoser returns normally (`.ok`)
with the "no errors found" sentinel — but the single try/except wraps
both blocks, so the apply sub-resource is NOT checked afterwards: the
returned trace extends the locating trace by plan-side fetches only. -/
theorem plan_failure_caught_no_apply :
    (∀ (api : TfcApi) (ws org : String) (rid? : Option String) (run : RunData)
        (tr0 : List FetchEvent) (plan_id e : String),
        locateRun api ws org rid? = (.ok (some run), tr0) →
        run.status = "errored" →
        run.plan = some plan_id →
        api.fetchPlanLogUrl plan_id = .error e →
        get_latest_run_error api ws org rid?
          = (.ok noErrorsSentinel, tr0 ++ [.planDetails plan_id]))
    ∧ (∀ (api : TfcApi) (ws org : String) (rid? : Option String) (run : RunData)
        (tr0 : List FetchEvent) (plan_id url e : String),
        locateRun api ws org rid? = (.ok (some run), tr0) →
        run.status = "errored" →
        run.plan = some plan_id →
        api.fetchPlanLogUrl plan_id = .ok (some url) →
        api.fetchLog url = .error e →
        get_latest_run_error api ws org rid?
          = (.ok noErrorsSentinel, tr0 ++ [.planDetails plan_id, .logGet url])) := by
  constructor
  · intro api ws org rid? run tr0 plan_id e hloc hst hplan hpu
    simp only [get_latest_run_error, hloc, hst, if_pos, diagnoseErroredRun,
      checkPlanStep, hplan, hpu, reduceIte]
  · intro api ws org rid? run tr0 plan_id url e hloc hst hplan hpu hlog
    simp only [get_latest_run_error, hloc, hst, if_pos, diagnoseErroredRun,
      checkPlanStep, hplan, hpu, hlog, reduceIte]

/-- C2 witness: the first conjunct applied at `apiPlanHttpFail`. -/
theorem plan_failure_caught_no_apply_witness :
    get_latest_run_error apiPlanHttpFail "WS" "ORG" (some "run-1")
      = (.ok noErrorsSentinel, [.runById "run-1", .planDetails "plan-1"]) :=
  plan_failure_caught_no_apply.1 apiPlanHttpFail "WS" "ORG" (some "run-1")
    ⟨"run-1", "errored", some "plan-1", some "apply-1"⟩ [.runById "run-1"]
    "plan-1" "500 Server Error" rfl rfl rfl rfl

/-- C6 counterexample: when the workspace's runs list is empty ("no run
was found"), `get_latest_run_error` returns the distinct literal
`"No runs found for the workspace."`, not the
`"No errors found in the latest run's plan or apply output."` sentinel
the claim names. -/
theorem no_runs_sentinel_counterexample :
    (get_latest_run_error apiNoRuns "WS" "ORG" none).1 = .ok noRunsSentinel
    ∧ noRunsSentinel ≠ noErrorsSentinel :=
  ⟨rfl, by decide⟩

/-- C6 (amended): whenever the located run's status is not `errored`,
`get_latest_run_error` returns the fixed "no errors found" sentinel and
performs no plan or apply sub-resource fetch (the trace is exactly the
locating trace); when the runs list is empty it returns the different
sentinel `"No runs found for the workspace."`. -/
theorem not_errored_returns_sentinel :
    (∀ (api : TfcApi) (ws org : String) (rid? : Option String) (run : RunData)
        (tr0 : List FetchEvent),
        locateRun api ws org rid? = (.ok (some run), tr0) →
        run.status ≠ "errored" →
        get_latest_run_error api ws org rid? = (.ok noErrorsSentinel, tr0))
    ∧ (∀ (api : TfcApi) (ws org : String) (rid? : Option String)
        (tr0 : List FetchEvent),
        locateRun api ws org rid? = (.ok none, tr0) →
        get_latest_run_error api ws org rid? = (.ok noRunsSentinel, tr0)) := by
  constructor
  · intro api ws org rid? run tr0 hloc hst
    simp only [get_latest_run_error, hloc, hst, reduceIte, if_neg]
  · intro api ws org rid? tr0 hloc
    simp only [get_latest_run_error, hloc]

/-- C6 witness: the first conjunct applied at a planning run. -/
theorem not_errored_returns_sentinel_witness :
    get_latest_run_error apiPlanningRun "WS" "ORG" (some "run-1")
      = (.ok noErrorsSentinel, [.runById "run-1"]) :=
  not_errored_returns_sentinel.1 apiPlanningRun "WS" "ORG" (some "run-1")
    ⟨"run-1", "planning", some "plan-1", some "apply-1"⟩ [.runById "run-1"]
    rfl (by decide)

lemma pyNegGet_eq_getD (xs : List String) (k : Nat) (h1 : 1 ≤ k)
    (h2 : k ≤ xs.length) :
    pyNegGet xs k = some (xs.getD (xs.length - k) "") := by
  unfold pyNegGet
  rw [if_pos ⟨h1, h2⟩]
  have hlt : xs.length - k < xs.length := by omega
  rw [List.get?_eq_getElem?, List.getElem?_eq_getElem hlt,
    List.getD_eq_getElem?_getD, List.getElem?_eq_getElem hlt]
  simp

lemma pyNegGet_eq_some_getD (xs : List String) (k : Nat) (x : String)
    (h : pyNegGet xs k = some x) : xs.getD (xs.length - k) "" = x := by
  unfold pyNegGet at h
  split at h
  · rw [List.getD_eq_getElem?_getD, ← List.get?_eq_getElem?, h]
    rfl
  · exact absurd h (by simp)

/-- C5: `get_workspace_id_from_url` splits on `/`; when the literal
segment `runs` appears it returns (3rd-from-last, 5th-from-last, last) as
(workspace, organization, run id), otherwise (last, 3rd-from-last, no run
id); in particular the two URL shapes of the spec resolve to
`(WS, ORG, RUN)` and `(WS, ORG, none)`. -/
theorem workspace_url_resolution :
    (∀ (url : String),
        "runs" ∈ pySplitChar '/' url →
        5 ≤ (pySplitChar '/' url).length →
        get_workspace_id_from_url url =
          some ((pySplitChar '/' url).getD ((pySplitChar '/' url).length - 3) "",
                (pySplitChar '/' url).getD ((pySplitChar '/' url).length - 5) "",
                some ((pySplitChar '/' url).getD ((pySplitChar '/' url).length - 1) "")))
    ∧ (∀ (url : String),
        "runs" ∉ pySplitChar '/' url →
        3 ≤ (pySplitChar '/' url).length →
        get_workspace_id_from_url url =
          some ((pySplitChar '/' url).getD ((pySplitChar '/' url).length - 1) "",
                (pySplitChar '/' url).getD ((pySplitChar '/' url).length - 3) "",
                none))
    ∧ get_workspace_id_from_url
        "https://tfe.example.com/organizations/ORG/workspaces/WS/runs/RUN"
        = some ("WS", "ORG", some "RUN")
    ∧ get_workspace_id_from_url
        "https://tfe.example.com/organizations/ORG/workspaces/WS"
        = some ("WS", "ORG", none) := by
  refine ⟨?_, ?_, by decide, by decide⟩
  · intro url hruns hlen
    simp only [get_workspace_id_from_url, if_pos hruns,
      pyNegGet_eq_getD (pySplitChar '/' url) 3 (by omega) (by omega),
      pyNegGet_eq_getD (pySplitChar '/' url) 5 (by omega) hlen,
      pyNegGet_eq_getD (pySplitChar '/' url) 1 (by omega) (by omega)]
  · intro url hruns hlen
    simp only [get_workspace_id_from_url, if_neg hruns,
      pyNegGet_eq_getD (pySplitChar '/' url) 1 (by omega) (by omega),
      pyNegGet_eq_getD (pySplitChar '/' url) 3 (by omega) hlen]

/-- C5 witness: the first conjunct applied at the run-scoped spec URL. -/
theorem workspace_url_resolution_witness :
    get_workspace_id_from_url
        "https://tfe.example.com/organizations/ORG/workspaces/WS/runs/RUN"
      = some ((pySplitChar '/' "https://tfe.example.com/organizations/ORG/workspaces/WS/runs/RUN").getD
                ((pySplitChar '/' "https://tfe.example.com/organizations/ORG/workspaces/WS/runs/RUN").length - 3) "",
              (pySplitChar '/' "https://tfe.example.com/organizations/ORG/workspaces/WS/runs/RUN").getD
                ((pySplitChar '/' "https://tfe.example.com/organizations/ORG/workspaces/WS/runs/RUN").length - 5) "",
              some ((pySplitChar '/' "https://tfe.example.com/organizations/ORG/workspaces/WS/runs/RUN").getD
                ((pySplitChar '/' "https://tfe.example.com/organizations/ORG/workspaces/WS/runs/RUN").length - 1) "")) :=
  workspace_url_resolution.1
    "https://tfe.example.com/organizations/ORG/workspaces/WS/runs/RUN"
    (by decide) (by decide)

/-- C8 counterexample: the URL `a/b/` resolves without error to an empty
workspace name with `run_id` absent, refuting the invariant that
organization and workspace are always non-empty when `run_id` is
absent. -/
theorem resolver_nonempty_counterexample :
    get_workspace_id_from_url "a/b/" = some ("", "a", none)
    ∧ ¬(∀ (url ws org : String),
          get_workspace_id_from_url url = some (ws, org, none) →
          ws ≠ "" ∧ org ≠ "") := by
  refine ⟨by decide, fun h => ?_⟩
  exact (h "a/b/" "" "a" (by decide)).1 rfl

/-- C8 (amended): when the resolver returns without error with `run_id`
absent, the returned workspace and organization are exactly the last and
3rd-from-last `/`-segments of the URL; so whenever those two positions
hold non-empty segments — as in every canonical absolute workspace URL —
the returned organization and workspace names are non-empty. -/
theorem resolver_nonempty_amended (url ws org : String)
    (hres : get_workspace_id_from_url url = some (ws, org, none))
    (hws : (pySplitChar '/' url).getD ((pySplitChar '/' url).length - 1) "" ≠ "")
    (horg : (pySplitChar '/' url).getD ((pySplitChar '/' url).length - 3) "" ≠ "") :
    ws ≠ "" ∧ org ≠ "" := by
  unfold get_workspace_id_from_url at hres
  by_cases hruns : "runs" ∈ pySplitChar '/' url
  · rw [if_pos hruns] at hres
    rcases h3 : pyNegGet (pySplitChar '/' url) 3 with _ | wsv <;>
      rcases h5 : pyNegGet (pySplitChar '/' url) 5 with _ | orgv <;>
      rcases h1 : pyNegGet (pySplitChar '/' url) 1 with _ | ridv <;>
      simp [h3, h5, h1] at hres
  · rw [if_neg hruns] at hres
    rcases h1 : pyNegGet (pySplitChar '/' url) 1 with _ | wsv <;>
      rcases h3 : pyNegGet (pySplitChar '/' url) 3 with _ | orgv <;>
      simp [h1, h3] at hres
    obtain ⟨hws1, horg1⟩ := hres
    subst hws1
    subst horg1
    rw [pyNegGet_eq_some_getD _ _ _ h1] at hws
    rw [pyNegGet_eq_some_getD _ _ _ h3] at horg
    exact ⟨hws, horg⟩

/-- C8 witness: the amended theorem at a canonical absolute workspace
URL (whose split contains an empty segment after `https:`, while the
last and 3rd-from-last segments are non-empty). -/
theorem resolver_nonempty_amended_witness :
    ("my-ws" : String) ≠ "" ∧ ("my-org" : String) ≠ "" :=
  resolver_nonempty_amended "https://tfe.example.com/app/my-org/workspaces/my-ws"
    "my-ws" "my-org" (by decide) (by decide) (by decide)

lemma stageTwoTry_ok_shape (w : StageTwoWorld) (event : AgentEvent)
    (ag fn : String) (r : FinalResponse)
    (h : stageTwoTry w event ag fn = .ok r) :
    r.actionGroup = ag ∧ r.function = fn
      ∧ event.messageVersion = some r.messageVersion := by
  unfold stageTwoTry at h
  cases hrem : w.invokeRemote (lookupLast (event.parameters.getD []) "workspace_url")
      (lookupLast (event.parameters.getD []) "repo_url")
      ((lookupLast (event.parameters.getD []) "branch_name").getD "main") with
  | error e => simp [hrem] at h
  | ok body =>
    simp only [hrem] at h
    by_cases hcond : body.error_message = none ∧ body.files_content.getD "" = ""
    · rw [if_pos hcond] at h
      simp at h
    · rw [if_neg hcond] at h
      cases hbed : w.invokeBedrock (buildPrompt body.error_message
          (body.files_content.getD "")) with
      | error e => simp [hbed] at h
      | ok steps =>
        simp only [hbed] at h
        cases hmv : event.messageVersion with
        | none => simp [hmv] at h
        | some mv =>
          simp only [hmv] at h
          cases h
          exact ⟨rfl, rfl, by simp [hmv]⟩

/-- C7 counterexample: an event missing the `agent` key — which the
handler reads before its try block — makes the stage-two handler
propagate a `KeyError` to the caller instead of returning an envelope. -/
theorem stage_two_missing_agent_counterexample :
    lambda_handler_stage2 worldBenign eventMissingAgent
      = .error (.keyError "\x27agent\x27") := rfl

/-- C7 (amended): for every event carrying the `agent`, `actionGroup`,
`function` and `messageVersion` keys, the stage-two handler returns
normally with a well-formed envelope (for any behaviour of the remote
stage-one call and the model call, including failures), the envelope
echoing the event's action group, function and message version; an event
missing one of those keys instead propagates a `KeyError`. -/
theorem stage_two_envelope_amended (w : StageTwoWorld) (event : AgentEvent)
    (a ag fn mv : String)
    (ha : event.agent = some a) (hag : event.actionGroup = some ag)
    (hfn : event.function = some fn) (hmv : event.messageVersion = some mv) :
    ∃ r : FinalResponse, lambda_handler_stage2 w event = .ok r
      ∧ r.actionGroup = ag ∧ r.function = fn ∧ r.messageVersion = mv := by
  unfold lambda_handler_stage2
  rw [ha, hag, hfn]
  cases htry : stageTwoTry w event ag fn with
  | ok r =>
    obtain ⟨h1, h2, h3⟩ := stageTwoTry_ok_shape w event ag fn r htry
    rw [hmv] at h3
    refine ⟨r, by simp [htry], h1, h2, (Option.some_inj.mp h3).symm⟩
  | error e =>
    cases e with
    | keyError s =>
      exact ⟨⟨ag, fn, "Missing required information: " ++ s, mv⟩,
        by simp [htry, hmv], rfl, rfl, rfl⟩
    | other s =>
      exact ⟨⟨ag, fn, "Error: " ++ s, mv⟩, by simp [htry, hmv], rfl, rfl, rfl⟩

/-- C7 witness: the amended theorem at a fully-populated event and a
benign world. -/
theorem stage_two_envelope_amended_witness :
    ∃ r : FinalResponse, lambda_handler_stage2 worldBenign eventFull = .ok r
      ∧ r.actionGroup = "ag-1" ∧ r.function = "fn-1" ∧ r.messageVersion = "1.0" :=
  stage_two_envelope_amended worldBenign eventFull "agent-1" "ag-1" "fn-1" "1.0"
    rfl rfl rfl rfl

/-- C9: when the stage-one body carries `error_message = None` and
`files_content = ""`, the stage-two handler raises the missing-data
`KeyError` and returns the envelope whose body starts with
`"Missing required information"` — a shape distinct from the generic
`"Error: <message>"` failures. -/
theorem missing_data_envelope (w : StageTwoWorld) (event : AgentEvent)
    (a ag fn mv : String)
    (ha : event.agent = some a) (hag : event.actionGroup = some ag)
    (hfn : event.function = some fn) (hmv : event.messageVersion = some mv)
    (hremote : ∀ wu ru bn, w.invokeRemote wu ru bn = .ok ⟨some "", none⟩) :
    lambda_handler_stage2 w event
      = .ok ⟨ag, fn, "Missing required information: " ++ missingDataKeyErrorStr, mv⟩
    ∧ strStartsWith ("Missing required information: " ++ missingDataKeyErrorStr)
        "Missing required information" = true
    ∧ strStartsWith ("Missing required information: " ++ missingDataKeyErrorStr)
        "Error: " = false := by
  refine ⟨?_, by decide, by decide⟩
  unfold lambda_handler_stage2 stageTwoTry
  rw [ha, hag, hfn, hremote]
  simp [hmv]

/-- C9 witness: the theorem at a fully-populated event and the
missing-data world. -/
theorem missing_data_envelope_witness :
    lambda_handler_stage2 worldMissingData eventFull
      = .ok ⟨"ag-1", "fn-1",
             "Missing required information: " ++ missingDataKeyErrorStr, "1.0"⟩
    ∧ strStartsWith ("Missing required information: " ++ missingDataKeyErrorStr)
        "Missing required information" = true
    ∧ strStartsWith ("Missing required information: " ++ missingDataKeyErrorStr)
        "Error: " = false :=
  missing_data_envelope worldMissingData eventFull "agent-1" "ag-1" "fn-1" "1.0"
    rfl rfl rfl rfl (fun _ _ _ => rfl)

lemma stage1_no_repo_trace (w : StageOneWorld) (event : StageOneEvent)
    (wurl : String) (hw : event.workspace_url = some wurl)
    (hrepo : pyTruthy event.repo_url = false) :
    ∃ tr2 : List FetchEvent,
      (lambda_handler_stage1 w event).2 = .tfeSecretFetch :: tr2.map .tfc := by
  unfold lambda_handler_stage1
  rw [hw]
  simp only [hrepo, Bool.false_eq_true, if_neg, not_false_iff]
  cases htok : w.tfeToken with
  | error e => exact ⟨[], by simp [htok]⟩
  | ok tok =>
    cases hres : get_workspace_id_from_url wurl with
    | none => exact ⟨[], by simp [htok, hres]⟩
    | some triple =>
      obtain ⟨ws, org, rid⟩ := triple
      rcases hdia : get_latest_run_error w.api ws org rid with ⟨res, tr2⟩
      cases res with
      | error e => exact ⟨tr2, by simp [htok, hres, hdia]⟩
      | ok msg => exact ⟨tr2, by simp [htok, hres, hdia]⟩

/-- C10: when `repo_url` is absent or falsy, the stage-one handler
performs no VCS-secret retrieval and no repository fetch (every traced
effect is the TFE-secret fetch or an automation-platform fetch), and on
the success path the response body carries `files_content = ""` with
`error_message` exactly the Run Diagnoser's result, the diagnosis taking
the same resolved workspace/organization/run-id arguments as always. -/
theorem stage1_no_repo_url (w : StageOneWorld) (event : StageOneEvent)
    (wurl : String) (hw : event.workspace_url = some wurl)
    (hrepo : pyTruthy event.repo_url = false) :
    (∀ ef ∈ (lambda_handler_stage1 w event).2,
        ef ≠ .vcsSecretFetch ∧ ∀ r b, ef ≠ .gitlabFetch r b)
    ∧ (∀ (tok ws org : String) (rid : Option String) (msg : String)
          (tr2 : List FetchEvent),
        w.tfeToken = .ok tok →
        get_workspace_id_from_url wurl = some (ws, org, rid) →
        get_latest_run_error w.api ws org rid = (.ok msg, tr2) →
        lambda_handler_stage1 w event
          = (.success "" msg, .tfeSecretFetch :: tr2.map .tfc)) := by
  constructor
  · intro ef hef
    obtain ⟨tr2, htr⟩ := stage1_no_repo_trace w event wurl hw hrepo
    rw [htr] at hef
    rcases List.mem_cons.mp hef with rfl | hmem
    · exact ⟨by simp, fun r b => by simp⟩
    · obtain ⟨x, -, rfl⟩ := List.mem_map.mp hmem
      exact ⟨by simp, fun r b => by simp⟩
  · intro tok ws org rid msg tr2 htok hres hdia
    unfold lambda_handler_stage1
    rw [hw]
    simp [hrepo, htok, hres, hdia]

/-- C10 witness: the success conjunct at a world with no repository URL
whose workspace's most recent run is still planning. -/
theorem stage1_no_repo_url_witness :
    lambda_handler_stage1 stageOneWorldNoRepo stageOneEventNoRepo
      = (.success "" noErrorsSentinel,
         [.tfeSecretFetch, .tfc (.workspaceByName "ORG" "WS"),
          .tfc (.runsList "ws-id-1")]) :=
  (stage1_no_repo_url stageOneWorldNoRepo stageOneEventNoRepo
      "https://tfe.example.com/app/ORG/workspaces/WS" rfl rfl).2
    "tfe-token" "WS" "ORG" none noErrorsSentinel
    [.workspaceByName "ORG" "WS", .runsList "ws-id-1"]
    rfl (by decide) rfl
